import Mathlib

/-!
Shallow embedding of the checkout orchestration core of the storefront
repository (file `src/server/stripe-api.ts`), centred on
`createCheckoutSession`.  External collaborators (auth provider, address
store, catalog database, payment gateway, shipping rate engine, shipping
ticket registrar, order store) are modelled as an oracle environment
`Env` holding the outcome each external call would produce; the
orchestrator itself is transliterated statement by statement.  Fallible
external calls that the source wraps in `Promise.allSettled` are
`Except` values inspected by the orchestrator; plain `await`s whose
rejection would propagate out of the function are modelled as the
`Outcome.fault` constructor.  JavaScript numbers are modelled as `Int`
(quantities, day bounds, minor-currency amounts) and `Rat` (prices,
weights, dimensions); `Map` objects are modelled by their
last-insertion-wins lookup over the insertion list.
-/

/-- A cart line as submitted by the client: `{ stripeId, quantity }`. -/
structure InputProduct where
  stripeId : String
  quantity : Int
deriving DecidableEq, Repr

/-- The catalog record selected by `db.book.findMany` (fields of the
`select` clause).  `weightGrams` is optional because the source guards it
with `?? 0`. -/
structure Book where
  id : String
  title : String
  price : Rat
  stripeId : String
  weightGrams : Option Int
  widthCm : Rat
  heightCm : Rat
  thicknessCm : Rat
deriving DecidableEq, Repr

/-- The user's stored shipping address (`db.address.findUnique`). -/
structure Address where
  cep : String
  street : String
  number : String
  complement : Option String
  neighborhood : String
  city : String
  state : String
deriving DecidableEq, Repr

/-- A product as returned by the gateway's `stripe.products.list`. -/
structure StripeProduct where
  id : String
  default_price : Option String
deriving DecidableEq, Repr

/-- The `delivery_range` of a shipping quote, in business days. -/
structure DeliveryRange where
  min : Int
  max : Int
deriving DecidableEq, Repr

/-- Package dimensions inside a shipping quote. -/
structure Dimensions where
  height : Rat
  width : Rat
  length : Rat
deriving DecidableEq, Repr

/-- One package of a shipping quote (`shipping.packages[i]`). -/
structure ShipPackage where
  dimensions : Dimensions
  weight : Rat
deriving DecidableEq, Repr

/-- A candidate quote returned by the shipping rate engine
(`calcShippingFee`). -/
structure Quote where
  id : Int
  name : String
  price : Rat
  delivery_range : DeliveryRange
  packages : List ShipPackage
deriving DecidableEq, Repr

/-- One item of the shipping rate request built from the gateway products
and the catalog records. -/
structure ShippingItem where
  quantity : Int
  height : Rat
  width : Rat
  length : Rat
  weight : Rat
deriving DecidableEq, Repr

/-- The request sent to `calcShippingFee`. -/
structure ShippingRequest where
  toPostalCode : String
  products : List ShippingItem
deriving DecidableEq, Repr

/-- A line item of the checkout session request: the gateway price
reference plus the quantity-map lookup (which the source does not
null-check, hence `Option`). -/
structure LineItem where
  price : String
  quantity : Option Int
deriving DecidableEq, Repr

/-- The fixed-amount shipping option attached to the session request
(`shipping_rate_data`). -/
structure ShippingRateData where
  serviceId : Int
  display_name : String
  delivery_min : Int
  delivery_max : Int
  amount : Int
  currency : String
deriving DecidableEq, Repr

/-- The checkout session creation request (the parts that vary per run). -/
structure SessionRequest where
  line_items : List LineItem
  shipping_rate : ShippingRateData
deriving DecidableEq, Repr

/-- The created checkout session as the source reads it back
(`session.id`, `session.amount_total`, `session.url`).  `amount_total!`
carries a non-null assertion in the source, so it is total here. -/
structure Session where
  id : String
  amount_total : Int
  url : Option String
deriving DecidableEq, Repr

/-- Clerk user profile data used for the ticket recipient block. -/
structure UserData where
  firstName : String
  lastName : String
  email : Option String
deriving DecidableEq, Repr

/-- Recipient block of the shipping ticket request. -/
structure TicketRecipient where
  name : String
  address : String
  district : String
  city : String
  state_abbr : String
  postal_code : String
  email : String
deriving DecidableEq, Repr

/-- One manifest entry of the ticket request / order line construction
(`productsForOrderShipping`). -/
structure OrderShippingProduct where
  bookDBId : String
  name : String
  quantity : Int
  unitary_value : Rat
deriving DecidableEq, Repr

/-- The `tag` of the ticket request; the source JSON-serialises this
pair, serialisation is abstracted away. -/
structure TicketTag where
  sessionId : String
  userId : String
deriving DecidableEq, Repr

/-- The shipping ticket request (`createShippingTicket` argument). -/
structure TicketRequest where
  «to» : TicketRecipient
  service : Int
  products : List OrderShippingProduct
  volumes : ShipPackage
  tag : TicketTag
deriving DecidableEq, Repr

/-- One persisted order line item (`BookOnOrder.createMany` row). -/
structure OrderLine where
  bookId : String
  price : Rat
deriving DecidableEq, Repr

/-- The persisted order aggregate (`db.order.create` data). -/
structure Order where
  userId : String
  sessionId : String
  ticketId : Int
  totalPrice : Rat
  shippingPrice : Rat
  shippingServiceId : String
  shippingServiceName : String
  shippingDaysMin : Int
  shippingDaysMax : Int
  lineItems : List OrderLine
deriving DecidableEq, Repr

/-- How one call to `createCheckoutSession` ends: a structured
`{success:true}` result, a structured `{success:false, message}` result,
or an uncaught fault (a thrown error / rejected plain `await`). -/
inductive Outcome where
  | ok (message : String) (url : Option String)
  | fail (message : String)
  | fault (message : String)
deriving DecidableEq, Repr

/-- Side effects the orchestrator performed, in request form: the ids and
limit sent to `stripe.products.list`, the shipping rate request, the
session creation request, the ticket request, and the order written on
success. -/
structure Effects where
  listRequested : Option (List String × Int) := none
  shippingRequested : Option ShippingRequest := none
  sessionRequested : Option SessionRequest := none
  ticketRequested : Option TicketRequest := none
  orderPersisted : Option Order := none
deriving DecidableEq, Repr

/-- Result of one orchestrator run: outcome plus effect trace. -/
structure RunResult where
  outcome : Outcome
  effects : Effects
deriving DecidableEq, Repr

/-- Oracle environment: what each external collaborator would answer on
this run.  `Except.error` models a rejected promise. -/
structure Env where
  userId : Option String
  address : Option Address
  catalog : List Book
  gatewayList : Except String (List StripeProduct)
  quotes : List Quote
  sessionResult : Except String Session
  userData : UserData
  ticketResult : Except String Int
  orderResult : Except String Unit

/-- Lookup in a JS `Map` built by iterating `set` over a list: the last
insertion for a key wins.  Models `booksMap.get`. -/
def booksMapGet (books : List Book) (sid : String) : Option Book :=
  books.reverse.find? (fun b => b.stripeId == sid)

/-- Models `productQuantityMap.get`: last insertion for a key wins. -/
def productQuantityGet (products : List InputProduct) (sid : String) : Option Int :=
  (products.reverse.find? (fun p => p.stripeId == sid)).map (·.quantity)

/-- Keys of a JS `Map` in insertion order: first occurrence of each key.
Models `[...productQuantityMap.keys()]`. -/
def insertionKeys (l : List String) : List String :=
  l.foldl (fun acc x => if acc.contains x then acc else acc ++ [x]) []

/-- Models `db.book.findMany` with `stripeId: { in: requested }`:
catalog records whose stripeId occurs in the request. -/
def requestedBooks (catalog : List Book) (inputProducts : List InputProduct) : List Book :=
  catalog.filter (fun b => (inputProducts.map (·.stripeId)).contains b.stripeId)

/-- Models `inputProducts.filter((p) => booksMap.get(p.stripeId))`: the request
lines that survive catalog filtering. -/
def survivingProducts (catalog : List Book) (inputProducts : List InputProduct) :
    List InputProduct :=
  inputProducts.filter
    (fun p => (booksMapGet (requestedBooks catalog inputProducts) p.stripeId).isSome)

/-- One item of the `calcShippingFee` request.  The source dereferences
`booksMap.get(sp.id)!` (three times) and reads
`productQuantityMap.get(sp.id)!`; a missing catalog record would throw a
`TypeError` at runtime, so the builder is total with `none` as the error
branch. -/
def buildShipItem (products : List InputProduct) (books : List Book)
    (sp : StripeProduct) : Option ShippingItem :=
  match productQuantityGet products sp.id, booksMapGet books sp.id with
  | some q, some b =>
      some { quantity := q
             height := b.heightCm
             width := b.widthCm
             length := b.thicknessCm
             weight := ((b.weightGrams.getD 0 : Int) : Rat) / 1000 }
  | _, _ => none

/-- The full `products:` array of the `calcShippingFee` request: one item
per gateway product, aborting (like the thrown `TypeError` would) as soon
as one construction fails. -/
def buildShipItems (products : List InputProduct) (books : List Book) :
    List StripeProduct → Option (List ShippingItem)
  | [] => some []
  | sp :: rest =>
    match buildShipItem products books sp, buildShipItems products books rest with
    | some item, some items => some (item :: items)
    | _, _ => none

/-- Models `arr.sort((a, b) => a.delivery_range.max - b.delivery_range.max)`:
a stable sort by the maximum delivery-day bound (JS `Array.prototype.sort`
is stable; insertion sort is stable for a total preorder). -/
def sortQuotes (arr : List Quote) : List Quote :=
  arr.insertionSort (fun a b => a.delivery_range.max ≤ b.delivery_range.max)

/-- The `.then` continuation on `calcShippingFee`: `undefined` on an
empty quote list, otherwise the head of the sorted list. -/
def selectQuote (arr : List Quote) : Option Quote :=
  if arr.isEmpty then none else (sortQuotes arr).head?

/-- Models `productsForOrderShipping`: the per-occurrence manifest built from
the surviving request lines, with `?? "N/A"` / `?? 0` defaults on the
catalog lookups. -/
def productsForOrderShipping (books : List Book) (products : List InputProduct) :
    List OrderShippingProduct :=
  products.map (fun product =>
    { bookDBId := ((booksMapGet books product.stripeId).map (·.id)).getD "N/A"
      name := ((booksMapGet books product.stripeId).map (·.title)).getD "N/A"
      quantity := product.quantity
      unitary_value := ((booksMapGet books product.stripeId).map (·.price)).getD 0 })

/-- The recipient block of the ticket request, built from the Clerk
profile and the stored address. -/
def ticketRecipient (userData : UserData) (userAddress : Address) : TicketRecipient :=
  { name := userData.firstName ++ " " ++ userData.lastName
    address := userAddress.street ++ ", número " ++ userAddress.number ++
      (match userAddress.complement with
       | some c => ", " ++ c
       | none => "")
    district := userAddress.neighborhood
    city := userAddress.city
    state_abbr := userAddress.state
    postal_code := userAddress.cep
    email := userData.email.getD "N/A" }

/-- Everything `createCheckoutSession` does after the request lines have
been filtered against the catalog (source lines 153-296): quantity map,
gateway product list, line items, shipping rate request, quote selection,
session creation, ticket registration, order persistence. -/
def checkoutWithProducts (env : Env) (userId : String) (userAddress : Address)
    (books : List Book) (products : List InputProduct) : RunResult :=
  let listIds := insertionKeys (products.map (·.stripeId))
  let e0 : Effects := { listRequested := some (listIds, (products.length : Int)) }
  match env.gatewayList with
  | .error err => ⟨.fail ("Failed to fetch products: " ++ err), e0⟩
  | .ok data =>
    let lineItems : List LineItem := data.map (fun sp =>
      { price := sp.default_price.getD ""
        quantity := productQuantityGet products sp.id })
    match buildShipItems products books data with
    | none => ⟨.fault "TypeError: cannot read properties of undefined", e0⟩
    | some shipItems =>
      let shipReq : ShippingRequest := { toPostalCode := userAddress.cep, products := shipItems }
      let e1 := { e0 with shippingRequested := some shipReq }
      match selectQuote env.quotes with
      | none => ⟨.fault "Not able to fetch shipping prices.", e1⟩
      | some shipping =>
        let sessReq : SessionRequest :=
          { line_items := lineItems
            shipping_rate :=
              { serviceId := shipping.id
                display_name := shipping.name
                delivery_min := shipping.delivery_range.min
                delivery_max := shipping.delivery_range.max
                amount := Rat.ceil (shipping.price * 100)
                currency := "brl" } }
        let e2 := { e1 with sessionRequested := some sessReq }
        match env.sessionResult with
        | .error err => ⟨.fail ("Failed to create checkout session: " ++ err), e2⟩
        | .ok session =>
          let manifest := productsForOrderShipping books products
          match shipping.packages with
          | [] => ⟨.fault "TypeError: cannot read properties of undefined", e2⟩
          | pkg :: _ =>
            let ticketReq : TicketRequest :=
              { «to» := ticketRecipient env.userData userAddress
                service := shipping.id
                products := manifest
                volumes := { dimensions := pkg.dimensions, weight := pkg.weight }
                tag := { sessionId := session.id, userId := userId } }
            let e3 := { e2 with ticketRequested := some ticketReq }
            match env.ticketResult with
            | .error err => ⟨.fault err, e3⟩
            | .ok ticketId =>
              let order : Order :=
                { userId := userId
                  sessionId := session.id
                  ticketId := ticketId
                  totalPrice := (session.amount_total : Rat) / 100
                  shippingPrice := shipping.price
                  shippingServiceId := toString shipping.id
                  shippingServiceName := shipping.name
                  shippingDaysMin := shipping.delivery_range.min
                  shippingDaysMax := shipping.delivery_range.max
                  lineItems := manifest.map (fun sp =>
                    { bookId := sp.bookDBId, price := sp.unitary_value }) }
              match env.orderResult with
              | .error err => ⟨.fault err, e3⟩
              | .ok _ =>
                ⟨.ok "Checkout session created successfully" session.url,
                 { e3 with orderPersisted := some order }⟩

/-- The orchestrator entry point (source lines 92-297): authorize,
resolve address, resolve catalog, filter request lines, then the rest of
the flow. -/
def createCheckoutSession (env : Env) (inputProducts : List InputProduct) : RunResult :=
  match env.userId with
  | none => ⟨.fail "User is not authorized.", {}⟩
  | some userId =>
    match env.address with
    | none => ⟨.fail "User has no address.", {}⟩
    | some userAddress =>
      checkoutWithProducts env userId userAddress
        (requestedBooks env.catalog inputProducts)
        (survivingProducts env.catalog inputProducts)

/-! ### Concrete fixtures

A fully successful environment, mirroring the end-to-end scenario of the
spec (one catalog book `prod_A`, one quote, all external calls succeed),
plus variations used to exhibit individual failure paths. -/

def bookA : Book :=
  { id := "b1", title := "Book A", price := 30, stripeId := "prod_A",
    weightGrams := some 500, widthCm := 10, heightCm := 10, thicknessCm := 2 }

def addr1 : Address :=
  { cep := "01310-100", street := "Av. Paulista", number := "1000", complement := none,
    neighborhood := "Bela Vista", city := "Sao Paulo", state := "SP" }

def q1 : Quote :=
  { id := 1, name := "SEDEX", price := (31 : Rat) / 2, delivery_range := { min := 3, max := 5 },
    packages := [{ dimensions := { height := 10, width := 10, length := 2 }, weight := 1 }] }

def spA : StripeProduct := { id := "prod_A", default_price := some "price_A" }

def sess1 : Session := { id := "cs_1", amount_total := 7550, url := some "https://pay.example/cs_1" }

def ud1 : UserData := { firstName := "Ana", lastName := "Silva", email := some "ana@example.com" }

def envOK : Env :=
  { userId := some "u1", address := some addr1, catalog := [bookA],
    gatewayList := .ok [spA], quotes := [q1], sessionResult := .ok sess1,
    userData := ud1, ticketResult := .ok 77, orderResult := .ok () }

def inputOK : List InputProduct := [{ stripeId := "prod_A", quantity := 2 }]

/-- The shipping item the successful run derives from `bookA`. -/
def item1 : ShippingItem :=
  { quantity := 2, height := 10, width := 10, length := 2, weight := ((500 : Int) : Rat) / 1000 }

/-- The session request of the successful fixture run. -/
def sr1 : SessionRequest :=
  { line_items := [{ price := "price_A", quantity := some 2 }],
    shipping_rate :=
      { serviceId := 1, display_name := "SEDEX", delivery_min := 3, delivery_max := 5,
        amount := 1550, currency := "brl" } }

/-- The single package of the fixture quote. -/
def pkg1 : ShipPackage := { dimensions := { height := 10, width := 10, length := 2 }, weight := 1 }

/-- Environment whose gateway product-list call fails. -/
def envG : Env := { envOK with gatewayList := .error "gateway down" }

/-- Environment whose shipping rate engine returns no quotes. -/
def envE : Env := { envOK with quotes := [] }

/-- Environment whose shipping ticket registration fails. -/
def env7 : Env := { envOK with ticketResult := .error "boom" }

/-- Environment whose order persistence fails. -/
def env7b : Env := { envOK with orderResult := .error "db down" }

/-- Environment whose session creation fails. -/
def env7c : Env := { envOK with sessionResult := .error "rate limited" }

/-- A quote priced at 10.001 currency units, for the ceiling-rounding
check. -/
def q4 : Quote := { q1 with price := (10001 : Rat) / 1000 }

/-- Environment returning only the 10.001-priced quote. -/
def env4 : Env := { envOK with quotes := [q4] }

/-- The session request of the `env4` run: amount is 1001, rounded up. -/
def sr4 : SessionRequest :=
  { line_items := [{ price := "price_A", quantity := some 2 }],
    shipping_rate :=
      { serviceId := 1, display_name := "SEDEX", delivery_min := 3, delivery_max := 5,
        amount := 1001, currency := "brl" } }

/-- A cart containing one catalog-known and one catalog-unknown id. -/
def inputUnknown : List InputProduct :=
  [{ stripeId := "prod_A", quantity := 2 }, { stripeId := "prod_X", quantity := 1 }]

/-- A cart listing the same stripeId twice with different quantities. -/
def input10 : List InputProduct :=
  [{ stripeId := "prod_A", quantity := 1 }, { stripeId := "prod_A", quantity := 2 }]

/-- The shipping rate request of the duplicate-id run: one item, with the
last occurrence's quantity. -/
def req10 : ShippingRequest := { toPostalCode := "01310-100", products := [item1] }

/-- The order persisted by the duplicate-id run: one line-item row per
occurrence. -/
def o10 : Order :=
  { userId := "u1", sessionId := "cs_1", ticketId := 77,
    totalPrice := ((7550 : Int) : Rat) / 100, shippingPrice := (31 : Rat) / 2,
    shippingServiceId := "1", shippingServiceName := "SEDEX",
    shippingDaysMin := 3, shippingDaysMax := 5,
    lineItems := [{ bookId := "b1", price := 30 }, { bookId := "b1", price := 30 }] }

/-! ### Helper lemmas -/

/-- The surviving request lines are exactly the input lines whose
stripeId has a catalog record. -/
theorem survivingProducts_eq (catalog : List Book) (input : List InputProduct) :
    survivingProducts catalog input
      = input.filter (fun p => catalog.any (fun b => b.stripeId == p.stripeId)) := by
  unfold survivingProducts
  apply List.filter_congr
  intro p hp
  rw [Bool.eq_iff_iff]
  simp only [booksMapGet, requestedBooks, List.find?_isSome, List.any_eq_true,
    List.mem_reverse, List.mem_filter, List.mem_map, beq_iff_eq,
    List.elem_eq_mem, decide_eq_true_eq]
  constructor
  · rintro ⟨b, ⟨hb, _⟩, heq⟩
    exact ⟨b, hb, heq⟩
  · rintro ⟨b, hb, heq⟩
    exact ⟨b, ⟨hb, ⟨p, hp, heq.symm⟩⟩, heq⟩

/-- Dropping the catalog-unknown lines from the request does not change
which catalog records `db.book.findMany` returns. -/
theorem requestedBooks_filter_eq (catalog : List Book) (input : List InputProduct) :
    requestedBooks catalog
        (input.filter (fun p => catalog.any (fun b => b.stripeId == p.stripeId)))
      = requestedBooks catalog input := by
  unfold requestedBooks
  apply List.filter_congr
  intro b hb
  rw [Bool.eq_iff_iff]
  simp only [List.elem_eq_mem, List.mem_map, List.mem_filter, decide_eq_true_eq,
    List.any_eq_true, beq_iff_eq]
  constructor
  · rintro ⟨p, ⟨hp, _⟩, heq⟩
    exact ⟨p, hp, heq⟩
  · rintro ⟨p, hp, heq⟩
    exact ⟨p, ⟨hp, ⟨b, hb, heq.symm⟩⟩, heq⟩

/-- Dropping the catalog-unknown lines from the request does not change
the surviving lines. -/
theorem survivingProducts_filter_eq (catalog : List Book) (input : List InputProduct) :
    survivingProducts catalog
        (input.filter (fun p => catalog.any (fun b => b.stripeId == p.stripeId)))
      = survivingProducts catalog input := by
  rw [survivingProducts_eq, survivingProducts_eq, List.filter_filter]
  apply List.filter_congr
  intro p _
  simp

/-- Auxiliary characterisation of the `Map` key iteration. -/
theorem mem_foldl_insertionKeys (x : String) :
    ∀ (l : List String) (acc : List String),
      x ∈ l.foldl (fun acc y => if acc.contains y then acc else acc ++ [y]) acc →
      x ∈ acc ∨ x ∈ l := by
  intro l
  induction l with
  | nil => exact fun acc h => .inl h
  | cons y ys ih =>
    intro acc h
    simp only [List.foldl_cons] at h
    rcases ih _ h with h' | h'
    · by_cases hc : acc.contains y
      · simp only [hc, if_true] at h'
        exact .inl h'
      · simp only [hc, if_false, Bool.false_eq_true, List.mem_append,
          List.mem_singleton] at h'
        rcases h' with h' | h'
        · exact .inl h'
        · exact .inr (h' ▸ List.mem_cons_self y ys)
    · exact .inr (List.mem_cons_of_mem _ h')

/-- Every key sent to `stripe.products.list` occurs in the quantity map's
insertion list. -/
theorem mem_insertionKeys {x : String} {l : List String} (h : x ∈ insertionKeys l) :
    x ∈ l := by
  rcases mem_foldl_insertionKeys x l [] h with h' | h'
  · cases h'
  · exact h'

/-- The product-list request is issued on every path through the rest of
the flow, with the quantity-map keys as ids and the surviving line count
as limit. -/
theorem checkout_listRequested (env : Env) (u : String) (a : Address)
    (books : List Book) (prods : List InputProduct) :
    (checkoutWithProducts env u a books prods).effects.listRequested
      = some (insertionKeys (prods.map (·.stripeId)), (prods.length : Int)) := by
  unfold checkoutWithProducts
  repeat' split
  all_goals rfl

/-- Inversion: if the shipping rate request went out, the gateway list
succeeded, every lookup in the request construction succeeded, and the
request is built from the gateway products and the user's postal code. -/
theorem checkout_shipReq_shape (env : Env) (u : String) (a : Address)
    (books : List Book) (prods : List InputProduct) (req : ShippingRequest)
    (h : (checkoutWithProducts env u a books prods).effects.shippingRequested = some req) :
    ∃ data, env.gatewayList = .ok data ∧
      ∃ items, buildShipItems prods books data = some items ∧
        req = { toPostalCode := a.cep, products := items } := by
  unfold checkoutWithProducts at h
  repeat' split at h
  all_goals simp_all

/-- Inversion: if the session creation request went out, it carries the
gateway-derived line items and the selected quote rendered as a
fixed-amount shipping option with a ceiling-rounded amount. -/
theorem checkout_sessReq_shape (env : Env) (u : String) (a : Address)
    (books : List Book) (prods : List InputProduct) (sr : SessionRequest)
    (h : (checkoutWithProducts env u a books prods).effects.sessionRequested = some sr) :
    ∃ data, env.gatewayList = .ok data ∧
      ∃ q, selectQuote env.quotes = some q ∧
        sr = { line_items := data.map (fun sp =>
                 { price := sp.default_price.getD ""
                   quantity := productQuantityGet prods sp.id })
               shipping_rate :=
                 { serviceId := q.id, display_name := q.name
                   delivery_min := q.delivery_range.min
                   delivery_max := q.delivery_range.max
                   amount := Rat.ceil (q.price * 100), currency := "brl" } } := by
  unfold checkoutWithProducts at h
  repeat' split at h
  all_goals simp_all

/-- Inversion: a persisted order records the selected quote, the session
totals, and the per-occurrence manifest rows. -/
theorem checkout_order_shape (env : Env) (u : String) (a : Address)
    (books : List Book) (prods : List InputProduct) (o : Order)
    (h : (checkoutWithProducts env u a books prods).effects.orderPersisted = some o) :
    ∃ q, selectQuote env.quotes = some q ∧
      ∃ sess, env.sessionResult = .ok sess ∧
        ∃ t, env.ticketResult = .ok t ∧
          o = { userId := u, sessionId := sess.id, ticketId := t
                totalPrice := (sess.amount_total : Rat) / 100
                shippingPrice := q.price, shippingServiceId := toString q.id
                shippingServiceName := q.name
                shippingDaysMin := q.delivery_range.min
                shippingDaysMax := q.delivery_range.max
                lineItems := (productsForOrderShipping books prods).map (fun sp =>
                  { bookId := sp.bookDBId, price := sp.unitary_value }) } := by
  unfold checkoutWithProducts at h
  repeat' split at h
  all_goals simp_all

/-- Inversion: a successful outcome implies the order was persisted. -/
theorem checkout_ok_persists (env : Env) (u : String) (a : Address)
    (books : List Book) (prods : List InputProduct) (m : String) (url : Option String)
    (h : (checkoutWithProducts env u a books prods).outcome = .ok m url) :
    (checkoutWithProducts env u a books prods).effects.orderPersisted.isSome := by
  unfold checkoutWithProducts at h ⊢
  repeat' split at h
  all_goals simp_all

theorem buildShipItems_isSome (products : List InputProduct) (books : List Book) :
    ∀ (data : List StripeProduct), (∀ sp ∈ data, (buildShipItem products books sp).isSome) →
      ∃ items, buildShipItems products books data = some items ∧
        items.length = data.length := by
  intro data
  induction data with
  | nil => exact fun _ => ⟨[], rfl, rfl⟩
  | cons sp rest ih =>
    intro h
    rcases Option.isSome_iff_exists.mp (h sp (List.mem_cons_self sp rest)) with ⟨y, hy⟩
    rcases ih (fun z hz => h z (List.mem_cons_of_mem _ hz)) with ⟨items, hitems, hlen⟩
    exact ⟨y :: items, by simp [buildShipItems, hy, hitems], by simp [hlen]⟩

theorem buildShipItems_map (g : ShippingItem → β) (k : StripeProduct → β)
    (products : List InputProduct) (books : List Book)
    (hfk : ∀ sp y, buildShipItem products books sp = some y → g y = k sp) :
    ∀ (data : List StripeProduct) (items : List ShippingItem),
      buildShipItems products books data = some items → items.map g = data.map k := by
  intro data
  induction data with
  | nil => intro items h; simp [buildShipItems] at h; simp [← h]
  | cons sp rest ih =>
    intro items h
    simp only [buildShipItems] at h
    cases hsp : buildShipItem products books sp with
    | none => simp [hsp] at h
    | some y =>
      cases hrest : buildShipItems products books rest with
      | none => simp [hsp, hrest] at h
      | some ys =>
        simp only [hsp, hrest] at h
        cases h
        simp [ih ys hrest, hfk sp y hsp]

theorem find?_reverse_eq_getLast?_filter (l : List InputProduct) (sid : String) :
    l.reverse.find? (fun p => p.stripeId == sid)
      = (l.filter (fun p => p.stripeId == sid)).getLast? := by
  induction l with
  | nil => rfl
  | cons x xs ih =>
    simp only [List.reverse_cons, List.find?_append, ih, List.filter_cons]
    cases hfil : (xs.filter (fun p => p.stripeId == sid)).getLast? with
    | some y =>
      split
      · simp [List.getLast?_cons, hfil]
      · simp [hfil]
    | none =>
      have hnil : xs.filter (fun p => p.stripeId == sid) = [] := by
        cases hh : xs.filter (fun p => p.stripeId == sid) with
        | nil => rfl
        | cons a as => rw [hh] at hfil; simp [List.getLast?_cons] at hfil
      split
      · rename_i hx
        simp [List.getLast?_cons, hnil, List.find?_cons, hx]
      · simp [hnil, List.find?_cons]
        split <;> simp_all

/-- The lookup `productQuantityMap.get` returns the quantity of the last occurrence
of the key in the surviving request list. -/
theorem productQuantityGet_eq_getLast (l : List InputProduct) (sid : String) :
    productQuantityGet l sid
      = ((l.filter (fun p => p.stripeId == sid)).getLast?).map (·.quantity) := by
  unfold productQuantityGet
  rw [find?_reverse_eq_getLast?_filter]

/-- The selected quote is one of the returned quotes. -/
theorem selectQuote_mem {arr : List Quote} {q : Quote} (h : selectQuote arr = some q) :
    q ∈ arr := by
  unfold selectQuote at h
  split at h
  · cases h
  · have hq : q ∈ sortQuotes arr := by
      cases hs : sortQuotes arr with
      | nil => rw [hs] at h; cases h
      | cons y ys => rw [hs] at h; simp at h; simp [hs, h]
    exact (List.perm_insertionSort _ arr).mem_iff.mp hq

/-- The selected quote minimises the maximum delivery-day bound. -/
theorem selectQuote_min {arr : List Quote} {q : Quote} (h : selectQuote arr = some q) :
    ∀ r ∈ arr, q.delivery_range.max ≤ r.delivery_range.max := by
  haveI htot : IsTotal Quote (fun a b => a.delivery_range.max ≤ b.delivery_range.max) :=
    ⟨fun a b => Int.le_total a.delivery_range.max b.delivery_range.max⟩
  haveI htrans : IsTrans Quote (fun a b => a.delivery_range.max ≤ b.delivery_range.max) :=
    ⟨fun _ _ _ hab hbc => le_trans hab hbc⟩
  intro r hr
  unfold selectQuote at h
  split at h
  · cases h
  · have hsorted := List.sorted_insertionSort
      (fun a b : Quote => a.delivery_range.max ≤ b.delivery_range.max) arr
    cases hs : sortQuotes arr with
    | nil =>
      rw [hs] at h; cases h
    | cons y ys =>
      rw [hs] at h
      simp at h
      subst h
      unfold sortQuotes at hs
      rw [hs] at hsorted
      have hr' : r ∈ y :: ys := by
        rw [← hs]
        exact (List.perm_insertionSort _ arr).mem_iff.mpr hr
      rcases List.mem_cons.mp hr' with h' | h'
      · exact h' ▸ le_refl _
      · exact List.rel_of_sorted_cons hsorted r h'

/-- Stability: the head of the sorted list is the first element of the
original list whose key is at most the head key. -/
theorem head_sortQuotes_first_min :
    ∀ (l : List Quote) (q : Quote), (sortQuotes l).head? = some q →
      l.find? (fun r => r.delivery_range.max ≤ q.delivery_range.max) = some q := by
  intro l
  induction l with
  | nil => intro q h; cases h
  | cons x xs ih =>
    intro q h
    unfold sortQuotes at h
    simp only [List.insertionSort] at h
    cases hs : List.insertionSort
        (fun a b : Quote => a.delivery_range.max ≤ b.delivery_range.max) xs with
    | nil =>
      rw [hs] at h
      simp only [List.orderedInsert, List.head?] at h
      cases h
      simp [List.find?_cons]
    | cons y ys =>
      rw [hs] at h
      by_cases hxy : x.delivery_range.max ≤ y.delivery_range.max
      · rw [List.orderedInsert_of_le
            (fun a b : Quote => a.delivery_range.max ≤ b.delivery_range.max) ys hxy] at h
        simp only [List.head?] at h
        cases h
        simp [List.find?_cons]
      · simp only [List.orderedInsert, if_neg hxy, List.head?] at h
        cases h
        have := ih q (by rw [sortQuotes, hs]; rfl)
        rw [List.find?_cons]
        have hxq : ¬ (x.delivery_range.max ≤ q.delivery_range.max) := hxy
        simp only [decide_eq_true_eq, hxq, decide_eq_false hxq]
        exact this

/-- Tie-break: the selected quote is the first quote in engine order
whose maximum delivery-day bound is at most the selected one, i.e. the
first quote attaining the minimum. -/
theorem selectQuote_first_min {arr : List Quote} {q : Quote} (h : selectQuote arr = some q) :
    arr.find? (fun r => r.delivery_range.max ≤ q.delivery_range.max) = some q := by
  unfold selectQuote at h
  split at h
  · cases h
  · exact head_sortQuotes_first_min arr q h

/-! ### Claim theorems -/

/-- C5: if the gateway's product-list call fails, `createCheckoutSession`
returns a structured failure result and performs no further side effects:
no shipping rate request, no session creation, no ticket registration, no
persisted order. -/
theorem claim5_gateway_failure_early_exit (env : Env) (input : List InputProduct)
    (u : String) (a : Address) (e : String)
    (hu : env.userId = some u) (ha : env.address = some a)
    (hg : env.gatewayList = .error e) :
    (createCheckoutSession env input).outcome = .fail ("Failed to fetch products: " ++ e) ∧
    (createCheckoutSession env input).effects.shippingRequested = none ∧
    (createCheckoutSession env input).effects.sessionRequested = none ∧
    (createCheckoutSession env input).effects.ticketRequested = none ∧
    (createCheckoutSession env input).effects.orderPersisted = none := by
  simp [createCheckoutSession, checkoutWithProducts, hu, ha, hg]

theorem claim5_witness :
    (createCheckoutSession envG inputOK).outcome
      = .fail ("Failed to fetch products: " ++ "gateway down") ∧
    (createCheckoutSession envG inputOK).effects.shippingRequested = none ∧
    (createCheckoutSession envG inputOK).effects.sessionRequested = none ∧
    (createCheckoutSession envG inputOK).effects.ticketRequested = none ∧
    (createCheckoutSession envG inputOK).effects.orderPersisted = none :=
  claim5_gateway_failure_early_exit envG inputOK "u1" addr1 "gateway down" rfl rfl rfl

/-- C6: if the shipping rate engine returns an empty quote list, the
operation aborts with a raised fault before session creation: no session
request, no ticket registration, no persisted order. -/
theorem claim6_no_quotes_aborts (env : Env) (input : List InputProduct)
    (u : String) (a : Address) (data : List StripeProduct) (items : List ShippingItem)
    (hu : env.userId = some u) (ha : env.address = some a)
    (hg : env.gatewayList = .ok data)
    (hitems : buildShipItems (survivingProducts env.catalog input)
        (requestedBooks env.catalog input) data = some items)
    (hq : env.quotes = []) :
    (createCheckoutSession env input).outcome = .fault "Not able to fetch shipping prices." ∧
    (createCheckoutSession env input).effects.sessionRequested = none ∧
    (createCheckoutSession env input).effects.ticketRequested = none ∧
    (createCheckoutSession env input).effects.orderPersisted = none := by
  simp [createCheckoutSession, checkoutWithProducts, hu, ha, hg, hitems, hq, selectQuote]

theorem claim6_witness :
    (createCheckoutSession envE inputOK).outcome
      = .fault "Not able to fetch shipping prices." ∧
    (createCheckoutSession envE inputOK).effects.sessionRequested = none ∧
    (createCheckoutSession envE inputOK).effects.ticketRequested = none ∧
    (createCheckoutSession envE inputOK).effects.orderPersisted = none :=
  claim6_no_quotes_aborts envE inputOK "u1" addr1 [spA] [item1] rfl rfl rfl
    (by with_unfolding_all rfl) rfl

/-- C1: cart entries whose stripeId has no catalog record are dropped by
the filter and have no influence at all on the run: the whole run equals
the run on the filtered cart (hence the unknown id reaches neither the
gateway product list, nor the shipping rate request, nor the persisted
order, and never by itself causes a failure); only catalog-known ids
survive the filter, and every id sent to the gateway product list is
catalog-known. -/
theorem claim1_unknown_ids_inert (env : Env) (input : List InputProduct) :
    createCheckoutSession env input
      = createCheckoutSession env
          (input.filter (fun p => env.catalog.any (fun b => b.stripeId == p.stripeId))) ∧
    survivingProducts env.catalog input
      = input.filter (fun p => env.catalog.any (fun b => b.stripeId == p.stripeId)) ∧
    (∀ ids limit,
      (createCheckoutSession env input).effects.listRequested = some (ids, limit) →
      ∀ sid ∈ ids, env.catalog.any (fun b => b.stripeId == sid) = true) := by
  refine ⟨?_, survivingProducts_eq env.catalog input, ?_⟩
  · unfold createCheckoutSession
    cases hu : env.userId with
    | none => rfl
    | some u =>
      cases ha : env.address with
      | none => rfl
      | some a =>
        rw [requestedBooks_filter_eq, survivingProducts_filter_eq]
  · intro ids limit h sid hsid
    unfold createCheckoutSession at h
    cases hu : env.userId with
    | none => simp [hu] at h
    | some u =>
      cases ha : env.address with
      | none => simp [hu, ha] at h
      | some a =>
        simp only [hu, ha] at h
        rw [checkout_listRequested] at h
        have hids : ids = insertionKeys
            ((survivingProducts env.catalog input).map (·.stripeId)) := by
          cases h; rfl
        subst hids
        have hsid' := mem_insertionKeys hsid
        rcases List.mem_map.mp hsid' with ⟨p, hp, hpsid⟩
        rw [survivingProducts_eq] at hp
        rcases List.mem_filter.mp hp with ⟨_, hany⟩
        rw [← hpsid]
        exact hany

theorem claim1_witness :
    createCheckoutSession envOK inputUnknown
      = createCheckoutSession envOK
          (inputUnknown.filter (fun p => envOK.catalog.any (fun b => b.stripeId == p.stripeId))) ∧
    envOK.catalog.any (fun b => b.stripeId == "prod_A") = true := by
  refine ⟨(claim1_unknown_ids_inert envOK inputUnknown).1, ?_⟩
  exact (claim1_unknown_ids_inert envOK inputUnknown).2.2 ["prod_A"] 1
    (by with_unfolding_all rfl) "prod_A" (by simp)

/-- C2: whenever a session request is issued, the quote it carries is one
of the engine's quotes, its maximum delivery-day bound is minimal among
all returned quotes, and on ties it is the first minimal quote in engine
order (the head of the stable sort by delivery_range.max). -/
theorem claim2_minimal_max_quote (env : Env) (input : List InputProduct)
    (sr : SessionRequest)
    (hsr : (createCheckoutSession env input).effects.sessionRequested = some sr) :
    ∃ q, selectQuote env.quotes = some q ∧ q ∈ env.quotes ∧
      sr.shipping_rate.serviceId = q.id ∧ sr.shipping_rate.display_name = q.name ∧
      (∀ r ∈ env.quotes, q.delivery_range.max ≤ r.delivery_range.max) ∧
      env.quotes.find? (fun r => r.delivery_range.max ≤ q.delivery_range.max) = some q := by
  unfold createCheckoutSession at hsr
  cases hu : env.userId with
  | none => simp [hu] at hsr
  | some u =>
    cases ha : env.address with
    | none => simp [hu, ha] at hsr
    | some a =>
      simp only [hu, ha] at hsr
      rcases checkout_sessReq_shape env u a _ _ sr hsr with ⟨data, _, q, hq, hsr'⟩
      exact ⟨q, hq, selectQuote_mem hq, by rw [hsr'], by rw [hsr'],
        selectQuote_min hq, selectQuote_first_min hq⟩

theorem claim2_witness :
    ∃ q, selectQuote envOK.quotes = some q ∧ q ∈ envOK.quotes ∧
      sr1.shipping_rate.serviceId = q.id ∧ sr1.shipping_rate.display_name = q.name ∧
      (∀ r ∈ envOK.quotes, q.delivery_range.max ≤ r.delivery_range.max) ∧
      envOK.quotes.find? (fun r => r.delivery_range.max ≤ q.delivery_range.max) = some q :=
  claim2_minimal_max_quote envOK inputOK sr1 (by with_unfolding_all rfl)

/-- C4: the fixed shipping amount sent in the session's shipping option
is the ceiling of the chosen quote's price times 100 (minor currency
units, rounded up). -/
theorem claim4_ceiling_amount (env : Env) (input : List InputProduct)
    (sr : SessionRequest)
    (hsr : (createCheckoutSession env input).effects.sessionRequested = some sr) :
    ∃ q, selectQuote env.quotes = some q ∧
      sr.shipping_rate.amount = Rat.ceil (q.price * 100) := by
  unfold createCheckoutSession at hsr
  cases hu : env.userId with
  | none => simp [hu] at hsr
  | some u =>
    cases ha : env.address with
    | none => simp [hu, ha] at hsr
    | some a =>
      simp only [hu, ha] at hsr
      rcases checkout_sessReq_shape env u a _ _ sr hsr with ⟨data, _, q, hq, hsr'⟩
      exact ⟨q, hq, by rw [hsr']⟩

theorem claim4_witness :
    (∃ q, selectQuote env4.quotes = some q ∧
      sr4.shipping_rate.amount = Rat.ceil (q.price * 100)) ∧
    sr4.shipping_rate.amount = 1001 :=
  ⟨claim4_ceiling_amount env4 inputOK sr4 (by with_unfolding_all rfl), rfl⟩

/-- C3: on every successful run, the persisted order's shipping fields
mirror the chosen quote exactly: price, min/max delivery days, service id
and service name. -/
theorem claim3_order_matches_quote (env : Env) (input : List InputProduct)
    (m : String) (url : Option String)
    (h : (createCheckoutSession env input).outcome = .ok m url) :
    ∃ q, selectQuote env.quotes = some q ∧
      ∃ o, (createCheckoutSession env input).effects.orderPersisted = some o ∧
        o.shippingPrice = q.price ∧
        o.shippingDaysMin = q.delivery_range.min ∧
        o.shippingDaysMax = q.delivery_range.max ∧
        o.shippingServiceId = toString q.id ∧
        o.shippingServiceName = q.name := by
  unfold createCheckoutSession at h ⊢
  cases hu : env.userId with
  | none => simp [hu] at h
  | some u =>
    cases ha : env.address with
    | none => simp [hu, ha] at h
    | some a =>
      simp only [hu, ha] at h ⊢
      have hpers := checkout_ok_persists env u a _ _ m url h
      rcases Option.isSome_iff_exists.mp hpers with ⟨o, ho⟩
      rcases checkout_order_shape env u a _ _ o ho with ⟨q, hq, sess, _, t, _, ho'⟩
      exact ⟨q, hq, o, ho, by rw [ho'], by rw [ho'], by rw [ho'], by rw [ho'], by rw [ho']⟩

theorem claim3_witness :
    ∃ q, selectQuote envOK.quotes = some q ∧
      ∃ o, (createCheckoutSession envOK inputOK).effects.orderPersisted = some o ∧
        o.shippingPrice = q.price ∧
        o.shippingDaysMin = q.delivery_range.min ∧
        o.shippingDaysMax = q.delivery_range.max ∧
        o.shippingServiceId = toString q.id ∧
        o.shippingServiceName = q.name :=
  claim3_order_matches_quote envOK inputOK "Checkout session created successfully"
    (some "https://pay.example/cs_1") (by with_unfolding_all rfl)

/-- C9: on every successful run, the persisted order's total price is the
session's amount_total divided by 100, and each persisted line-item row
takes its price from the catalog mirror's unit price (defaulting to 0,
with bookId defaulting to "N/A", when the catalog lookup yields
nothing). -/
theorem claim9_order_totals_and_lines (env : Env) (input : List InputProduct)
    (m : String) (url : Option String)
    (h : (createCheckoutSession env input).outcome = .ok m url) :
    ∃ sess, env.sessionResult = .ok sess ∧
      ∃ o, (createCheckoutSession env input).effects.orderPersisted = some o ∧
        o.totalPrice = (sess.amount_total : Rat) / 100 ∧
        o.lineItems = (survivingProducts env.catalog input).map (fun p =>
          { bookId := ((booksMapGet (requestedBooks env.catalog input) p.stripeId).map
              (·.id)).getD "N/A"
            price := ((booksMapGet (requestedBooks env.catalog input) p.stripeId).map
              (·.price)).getD 0 }) := by
  unfold createCheckoutSession at h ⊢
  cases hu : env.userId with
  | none => simp [hu] at h
  | some u =>
    cases ha : env.address with
    | none => simp [hu, ha] at h
    | some a =>
      simp only [hu, ha] at h ⊢
      have hpers := checkout_ok_persists env u a _ _ m url h
      rcases Option.isSome_iff_exists.mp hpers with ⟨o, ho⟩
      rcases checkout_order_shape env u a _ _ o ho with ⟨q, hq, sess, hsess, t, ht, ho'⟩
      refine ⟨sess, hsess, o, ho, by rw [ho'], ?_⟩
      rw [ho']
      simp [productsForOrderShipping, List.map_map, Function.comp]

theorem claim9_witness :
    ∃ sess, envOK.sessionResult = .ok sess ∧
      ∃ o, (createCheckoutSession envOK inputOK).effects.orderPersisted = some o ∧
        o.totalPrice = (sess.amount_total : Rat) / 100 ∧
        o.lineItems = (survivingProducts envOK.catalog inputOK).map (fun p =>
          { bookId := ((booksMapGet (requestedBooks envOK.catalog inputOK) p.stripeId).map
              (·.id)).getD "N/A"
            price := ((booksMapGet (requestedBooks envOK.catalog inputOK) p.stripeId).map
              (·.price)).getD 0 }) :=
  claim9_order_totals_and_lines envOK inputOK "Checkout session created successfully"
    (some "https://pay.example/cs_1") (by with_unfolding_all rfl)

/-- Once the gateway list succeeded and every item construction
succeeded, the shipping rate request is issued with exactly those items
and the user's postal code, whatever happens later. -/
theorem checkout_shippingRequested_set (env : Env) (u : String) (a : Address)
    (books : List Book) (prods : List InputProduct)
    (data : List StripeProduct) (items : List ShippingItem)
    (hg : env.gatewayList = .ok data)
    (hitems : buildShipItems prods books data = some items) :
    (checkoutWithProducts env u a books prods).effects.shippingRequested
      = some { toPostalCode := a.cep, products := items } := by
  unfold checkoutWithProducts
  simp only [hg, hitems]
  repeat' split
  all_goals rfl

/-- A single item construction succeeds whenever some surviving request
line carries the gateway product's id. -/
theorem buildShipItem_isSome_of_covered (catalog : List Book)
    (input : List InputProduct) (sp : StripeProduct)
    (hcov : ∃ p ∈ survivingProducts catalog input, p.stripeId = sp.id) :
    (buildShipItem (survivingProducts catalog input) (requestedBooks catalog input) sp).isSome := by
  rcases hcov with ⟨p, hp, hpid⟩
  have hbm : (booksMapGet (requestedBooks catalog input) sp.id).isSome := by
    have := List.mem_filter.mp hp
    rw [← hpid]
    exact this.2
  have hfind : ((survivingProducts catalog input).reverse.find?
      (fun r => r.stripeId == sp.id)).isSome := by
    rw [List.find?_isSome]
    exact ⟨p, List.mem_reverse.mpr hp, by simp [hpid]⟩
  rcases Option.isSome_iff_exists.mp hfind with ⟨x, hx⟩
  have hpq : productQuantityGet (survivingProducts catalog input) sp.id = some x.quantity := by
    unfold productQuantityGet
    rw [hx]
    rfl
  rcases Option.isSome_iff_exists.mp hbm with ⟨b, hb⟩
  unfold buildShipItem
  rw [hpq, hb]
  rfl

/-- C8: if every gateway-returned product id is among the surviving
request ids, every map lookup in the shipping rate request construction
succeeds: the request is actually issued (no TypeError branch), with one
item per gateway product. -/
theorem claim8_lookups_succeed (env : Env) (input : List InputProduct)
    (u : String) (a : Address) (data : List StripeProduct)
    (hu : env.userId = some u) (ha : env.address = some a)
    (hg : env.gatewayList = .ok data)
    (hcov : ∀ sp ∈ data, ∃ p ∈ survivingProducts env.catalog input, p.stripeId = sp.id) :
    ∃ req, (createCheckoutSession env input).effects.shippingRequested = some req ∧
      req.products.length = data.length ∧ req.toPostalCode = a.cep := by
  rcases buildShipItems_isSome (survivingProducts env.catalog input)
      (requestedBooks env.catalog input) data
      (fun sp hsp => buildShipItem_isSome_of_covered env.catalog input sp (hcov sp hsp))
    with ⟨items, hitems, hlen⟩
  refine ⟨{ toPostalCode := a.cep, products := items }, ?_, hlen, rfl⟩
  unfold createCheckoutSession
  simp only [hu, ha]
  exact checkout_shippingRequested_set env u a _ _ data items hg hitems

theorem claim8_witness :
    ∃ req, (createCheckoutSession envOK inputOK).effects.shippingRequested = some req ∧
      req.products.length = ([spA] : List StripeProduct).length ∧
      req.toPostalCode = addr1.cep :=
  claim8_lookups_succeed envOK inputOK "u1" addr1 [spA] rfl rfl rfl (by decide)

/-- A successfully built shipping item carries the quantity-map lookup of
the gateway product's id. -/
theorem buildShipItem_quantity (prods : List InputProduct) (books : List Book)
    (sp : StripeProduct) (y : ShippingItem)
    (h : buildShipItem prods books sp = some y) :
    y.quantity = (productQuantityGet prods sp.id).getD 0 := by
  unfold buildShipItem at h
  cases hpq : productQuantityGet prods sp.id with
  | none => rw [hpq] at h; simp at h
  | some q =>
    cases hbm : booksMapGet books sp.id with
    | none => rw [hpq, hbm] at h; simp at h
    | some b =>
      rw [hpq, hbm] at h
      cases h
      simp [hpq]

/-- C10: when the cart repeats a stripeId (all occurrences known to the
catalog), the gateway line items and the shipping rate request use the
quantity of the LAST occurrence in the cart, while the persisted order
gets one line-item row per occurrence. -/
theorem claim10_duplicate_ids (env : Env) (input : List InputProduct)
    (u : String) (a : Address) (data : List StripeProduct)
    (hu : env.userId = some u) (ha : env.address = some a)
    (hall : ∀ p ∈ input, env.catalog.any (fun b => b.stripeId == p.stripeId) = true)
    (hdup : ¬ (input.map (·.stripeId)).Nodup)
    (hg : env.gatewayList = .ok data) :
    (∀ sr, (createCheckoutSession env input).effects.sessionRequested = some sr →
      sr.line_items = data.map (fun sp =>
        { price := sp.default_price.getD ""
          quantity := ((input.filter (fun p => p.stripeId == sp.id)).getLast?).map
            (·.quantity) })) ∧
    (∀ req, (createCheckoutSession env input).effects.shippingRequested = some req →
      req.products.map (·.quantity) = data.map (fun sp =>
        (((input.filter (fun p => p.stripeId == sp.id)).getLast?).map (·.quantity)).getD 0)) ∧
    (∀ o, (createCheckoutSession env input).effects.orderPersisted = some o →
      o.lineItems.length = input.length) := by
  have hprods : survivingProducts env.catalog input = input := by
    rw [survivingProducts_eq]
    exact List.filter_eq_self.mpr hall
  refine ⟨?_, ?_, ?_⟩
  · intro sr hsr
    unfold createCheckoutSession at hsr
    simp only [hu, ha] at hsr
    rcases checkout_sessReq_shape env u a _ _ sr hsr with ⟨data', hg', q, hq, hsr'⟩
    rw [hg] at hg'
    injection hg' with hdata
    subst hdata
    rw [hsr']
    simp only [hprods, productQuantityGet_eq_getLast]
  · intro req hreq
    unfold createCheckoutSession at hreq
    simp only [hu, ha] at hreq
    rcases checkout_shipReq_shape env u a _ _ req hreq with ⟨data', hg', items, hitems, hreq'⟩
    rw [hg] at hg'
    injection hg' with hdata
    subst hdata
    rw [hreq']
    have hmap := buildShipItems_map (fun y => y.quantity)
      (fun sp => (productQuantityGet (survivingProducts env.catalog input) sp.id).getD 0)
      (survivingProducts env.catalog input) (requestedBooks env.catalog input)
      (fun sp y hy => buildShipItem_quantity _ _ sp y hy) data items hitems
    simp only at hmap ⊢
    rw [hmap]
    simp only [hprods, productQuantityGet_eq_getLast]
  · intro o ho
    unfold createCheckoutSession at ho
    simp only [hu, ha] at ho
    rcases checkout_order_shape env u a _ _ o ho with ⟨q, hq, sess, hsess, t, ht, ho'⟩
    rw [ho']
    simp [productsForOrderShipping, hprods]

theorem claim10_witness :
    sr1.line_items = ([spA] : List StripeProduct).map (fun sp =>
      { price := sp.default_price.getD ""
        quantity := ((input10.filter (fun p => p.stripeId == sp.id)).getLast?).map
          (·.quantity) }) ∧
    req10.products.map (·.quantity) = ([spA] : List StripeProduct).map (fun sp =>
      (((input10.filter (fun p => p.stripeId == sp.id)).getLast?).map (·.quantity)).getD 0) ∧
    o10.lineItems.length = input10.length := by
  have h := claim10_duplicate_ids envOK input10 "u1" addr1 [spA] rfl rfl
    (by decide) (by decide) rfl
  exact ⟨h.1 sr1 (by with_unfolding_all rfl),
    h.2.1 req10 (by with_unfolding_all rfl),
    h.2.2 o10 (by with_unfolding_all rfl)⟩

/-- C7 counterexample: with every call succeeding except the shipping
ticket registration, the run ends in an uncaught fault carrying the
rejection reason, not in a structured failure result — ticket
registration is a plain await in the source, outside any
`Promise.allSettled`. -/
theorem claim7_counterexample :
    (createCheckoutSession env7 inputOK).outcome = Outcome.fault "boom" := by
  with_unfolding_all rfl

/-- C7 (amended): failures of the gateway product-list call and of the
session creation call are captured and converted to structured
`{success:false}` results; the empty-quote-list condition, failures of
the shipping ticket registration, and failures of the order persistence
all propagate as uncaught faults. -/
theorem claim7_amended_error_channels (env : Env) (input : List InputProduct)
    (u : String) (a : Address)
    (hu : env.userId = some u) (ha : env.address = some a) :
    (∀ e, env.gatewayList = .error e →
      (createCheckoutSession env input).outcome = .fail ("Failed to fetch products: " ++ e)) ∧
    (∀ data items q e, env.gatewayList = .ok data →
      buildShipItems (survivingProducts env.catalog input)
        (requestedBooks env.catalog input) data = some items →
      selectQuote env.quotes = some q →
      env.sessionResult = .error e →
      (createCheckoutSession env input).outcome
        = .fail ("Failed to create checkout session: " ++ e)) ∧
    (∀ data items q sess pkg rest e, env.gatewayList = .ok data →
      buildShipItems (survivingProducts env.catalog input)
        (requestedBooks env.catalog input) data = some items →
      selectQuote env.quotes = some q →
      env.sessionResult = .ok sess →
      q.packages = pkg :: rest →
      env.ticketResult = .error e →
      (createCheckoutSession env input).outcome = .fault e) ∧
    (∀ data items q sess pkg rest t e, env.gatewayList = .ok data →
      buildShipItems (survivingProducts env.catalog input)
        (requestedBooks env.catalog input) data = some items →
      selectQuote env.quotes = some q →
      env.sessionResult = .ok sess →
      q.packages = pkg :: rest →
      env.ticketResult = .ok t →
      env.orderResult = .error e →
      (createCheckoutSession env input).outcome = .fault e) := by
  refine ⟨?_, ?_, ?_, ?_⟩
  · intro e hg
    simp [createCheckoutSession, checkoutWithProducts, hu, ha, hg]
  · intro data items q e hg hitems hq hsess
    simp [createCheckoutSession, checkoutWithProducts, hu, ha, hg, hitems, hq, hsess]
  · intro data items q sess pkg rest e hg hitems hq hsess hpkg ht
    simp [createCheckoutSession, checkoutWithProducts, hu, ha, hg, hitems, hq, hsess, hpkg, ht]
  · intro data items q sess pkg rest t e hg hitems hq hsess hpkg ht hord
    simp [createCheckoutSession, checkoutWithProducts, hu, ha, hg, hitems, hq, hsess, hpkg,
      ht, hord]

theorem claim7_amended_witness :
    (createCheckoutSession envG inputOK).outcome
      = .fail ("Failed to fetch products: " ++ "gateway down") ∧
    (createCheckoutSession env7c inputOK).outcome
      = .fail ("Failed to create checkout session: " ++ "rate limited") ∧
    (createCheckoutSession env7 inputOK).outcome = .fault "boom" ∧
    (createCheckoutSession env7b inputOK).outcome = .fault "db down" := by
  refine ⟨?_, ?_, ?_, ?_⟩
  · exact (claim7_amended_error_channels envG inputOK "u1" addr1 rfl rfl).1
      "gateway down" rfl
  · exact (claim7_amended_error_channels env7c inputOK "u1" addr1 rfl rfl).2.1
      [spA] [item1] q1 "rate limited" rfl (by with_unfolding_all rfl)
      (by with_unfolding_all rfl) rfl
  · exact (claim7_amended_error_channels env7 inputOK "u1" addr1 rfl rfl).2.2.1
      [spA] [item1] q1 sess1 pkg1 [] "boom" rfl (by with_unfolding_all rfl)
      (by with_unfolding_all rfl) rfl (by with_unfolding_all rfl) rfl
  · exact (claim7_amended_error_channels env7b inputOK "u1" addr1 rfl rfl).2.2.2
      [spA] [item1] q1 sess1 pkg1 [] 77 "db down" rfl (by with_unfolding_all rfl)
      (by with_unfolding_all rfl) rfl (by with_unfolding_all rfl) rfl rfl
